import Mathlib

/-!
Shallow embedding of the per-flare trigger/cancellation/observation core of
`GOES_XRS/updated_paramsearch.py` (class `ParameterSearch`), together with the
post-loop classifier pieces (`save_fitsinfo_to_df`'s metadata join and
long-duration flag, and `drop_na`).

Flux and time samples are modelled as rationals; the index-aligned series of a
flare record are lists.  A `nan` sentinel stored in a result cell is modelled
as `none` of an `Option`; a numpy/pandas out-of-range indexing error aborting
the computation is modelled as an outer `none` of the whole result.
-/

set_option autoImplicit false

namespace ParameterSearch

/-- One archive record (one row of the FITS table), as consumed by the core:
index-aligned series `time`, `xrsa`, `xrsb` and the scalar metadata columns. -/
structure Flare where
  flare_ID : ℤ
  time : List ℚ
  xrsa : List ℚ
  xrsb : List ℚ
  peak_time : ℚ
  flare_class : String
  peak_flux : ℚ
  start_to_peak_time : ℚ
  background_flux : ℚ
deriving DecidableEq

/-- The hidden state set by `flareloop_check_if_value_surpassed` when a flare
triggers: `self.trigger_index`, `self.hic_obs_start`, `self.hic_obs_end`. -/
structure TriggerWindow where
  trigger_index : ℕ
  hic_obs_start : ℕ
  hic_obs_end : ℕ
deriving DecidableEq

/-- The threshold specification, dispatched in the source by `isinstance`:
a scalar threshold against one series, or a tuple of (series, threshold)
pairs (the zipped `arrays`/`parameters` of the multi-channel branch). -/
inductive ThresholdSpec where
  | scalar (arr : List ℚ) (p : ℚ)
  | multi (pairs : List (List ℚ × ℚ))
deriving DecidableEq

/-- First index `i` with `start ≤ i < start + fuel` satisfying `p`
(the `np.where(...)[0][0]`-with-emptiness-check idiom). -/
def firstIdxFrom (p : ℕ → Bool) : ℕ → ℕ → Option ℕ
  | 0, _ => none
  | fuel + 1, start => if p start then some start else firstIdxFrom p fuel (start + 1)

/-- First index `i < n` satisfying `p`, if any. -/
def firstIdxBelow (p : ℕ → Bool) (n : ℕ) : Option ℕ :=
  firstIdxFrom p n 0

/-- Lines 103-105 of the source: on trigger at `t`,
`hic_obs_start = t + 3 + 4 + 2` (latency + launch prep + launch transit) and
`hic_obs_end = hic_obs_start + 6`. -/
def mkWindow (t : ℕ) : TriggerWindow :=
  ⟨t, t + 3 + 4 + 2, t + 3 + 4 + 2 + 6⟩

/-- Lines 97-99: each (series, threshold) pair is written into a DataFrame
column whose name is built from the threshold value alone, so a later pair
whose threshold equals an earlier pair's threshold overwrites that column:
only the last pair for each distinct threshold value survives into the
`df.all(1)` conjunction.  `survivingPairs` keeps exactly those pairs. -/
def survivingPairs : List (List ℚ × ℚ) → List (List ℚ × ℚ)
  | [] => []
  | q :: rest =>
      if rest.any fun r => decide (r.2 = q.2) then survivingPairs rest
      else q :: survivingPairs rest

/-- Lines 90-105 (`flareloop_check_if_value_surpassed`): `some` of the trigger
window iff the flare triggers (`triggered_bool = True`), `none` otherwise.
Scalar branch: `np.where(arrays > parameters)[0]`, strict `>`.
Multi branch: per-pair columns `np.array(arr) >= p` keyed by the threshold
value (so colliding thresholds keep only their last column, `survivingPairs`),
conjunction via `df.all(1)`, earliest `True` index over the row count set by
the first column assignment; an empty pair list yields an empty frame and
hence no trigger. -/
def flareloop_check_if_value_surpassed : ThresholdSpec → Option TriggerWindow
  | .scalar arr p =>
      (firstIdxBelow (fun i => decide (p < arr.getD i 0)) arr.length).map mkWindow
  | .multi pairs =>
      match pairs with
      | [] => none
      | (arr₀, _) :: _ =>
          (firstIdxBelow
            (fun i => (survivingPairs pairs).all fun q => decide (q.2 ≤ q.1.getD i 0))
            arr₀.length).map mkWindow

/-- Python clipping slice `l[a:b]`. -/
def sliceClip (l : List ℚ) (a b : ℕ) : List ℚ :=
  (l.drop a).take (b - a)

/-- `np.max` of a (nonempty) list; 0 on the empty list, which the source never
reaches because the empty slice is filtered first. -/
def listMax : List ℚ → ℚ
  | [] => 0
  | x :: xs => xs.foldl max x

/-- `np.mean`: sum divided by length. -/
def listMean (l : List ℚ) : ℚ :=
  l.sum / (l.length : ℚ)

/-- One entry of `self.calculated_flarelist`:
`[i, flare_ID, cancellation_bool, trigger_time, peak_bool, hic_max, hic_mean]`
(the flare number `i` is the archive index and is omitted here).  `Option`
fields model the `math.nan` sentinels. -/
structure LaunchRow where
  flare_ID : ℤ
  cancellation : Option Bool
  trigger_time : ℚ
  peak_bool : Option Bool
  hic_max : Option ℚ
  hic_mean : Option ℚ
deriving DecidableEq

/-- Lines 126-129: cancellation is evaluated only when `trigger_index + 3`
is in range of `xrsa`; then it is `(xrsa[t+3] - xrsa[t]) < 0`, else `nan`. -/
def cancellationOf (fl : Flare) (t : ℕ) : Option Bool :=
  if t + 3 < fl.xrsa.length then
    some (decide (fl.xrsa.getD (t + 3) 0 - fl.xrsa.getD t 0 < 0))
  else
    none

/-- Lines 114-122: slice `xrsb[a : a+6]`; if empty, max/mean/peak are all
`nan`; otherwise max and mean of the slice, and
`peak_bool = (time[14] < time[a]) & (time[a] < peak_time)`.  The unguarded
reads `time[14]` and `time[a]` abort (outer `none`) when out of range. -/
def observeWindow (fl : Flare) (a : ℕ) : Option (Option ℚ × Option ℚ × Option Bool) :=
  let hic := sliceClip fl.xrsb a (a + 6)
  if hic = [] then
    some (none, none, none)
  else
    match fl.time.get? 14, fl.time.get? a with
    | some t14, some ts =>
        some (some (listMax hic), some (listMean hic),
          some (decide (t14 < ts) && decide (ts < fl.peak_time)))
    | _, _ => none

/-- Lines 107-130 (`calculate_observed_xrsb_and_cancellation`): the row
appended to `calculated_flarelist` for a flare that triggered at `t`, or
`none` when an out-of-range indexing aborts the computation.
`trigger_time = time[t]` (line 124). -/
def calculate_observed_xrsb_and_cancellation (fl : Flare) (t : ℕ) : Option LaunchRow :=
  match observeWindow fl (t + 3 + 4 + 2), fl.time.get? t with
  | some (hmax, hmean, pk), some trig =>
      some ⟨fl.flare_ID, cancellationOf fl t, trig, pk, hmax, hmean⟩
  | _, _ => none

/-- Line 152: `np.where(flare_id == self.data['flare ID'])[0][0]` — the first
archive record whose identifier matches; `none` models the IndexError raised
when no record matches. -/
def lookup_launched_flare (archive : List Flare) (fid : ℤ) : Option Flare :=
  archive.find? fun g => decide (g.flare_ID = fid)

/-- The metadata columns written by lines 153-159 of `save_fitsinfo_to_df`,
all taken from the looked-up archive record
(`Duration = len(xrsa) - 30`, line 159). -/
structure JoinedMeta where
  flare_class : String
  peak_flux : ℚ
  start_to_peak_time : ℚ
  background_flux : ℚ
  peak_time : ℚ
  duration : ℤ
deriving DecidableEq

/-- Lines 151-159: the metadata join for one result row. -/
def save_fitsinfo_join (archive : List Flare) (fid : ℤ) : Option JoinedMeta :=
  (lookup_launched_flare archive fid).map fun g =>
    ⟨g.flare_class, g.peak_flux, g.start_to_peak_time, g.background_flux,
      g.peak_time, (g.xrsa.length : ℤ) - 30⟩

/-- Lines 161-171 of `save_fitsinfo_to_df`, evaluated on the joined archive
record `g`: `min_flux_level = peak_flux * 0.2`;
`peak_time_indx = np.where(time == peak_time)[0]`; if nonempty, then
`final_flux = 0` when `peak_time_indx[0] + 20 >= len(time)` and otherwise
`final_flux = time[peak_time_indx[0] + 20]` (note: the source reads the
`time` array here, not a flux array); `LongDuration = final_flux >
min_flux_level`.  If `peak_time` is not found, the flag is `nan`. -/
def longDurationFlag (g : Flare) : Option Bool :=
  let min_flux_level := g.peak_flux * (2 / 10)
  match firstIdxBelow (fun i => decide (g.time.getD i 0 = g.peak_time)) g.time.length with
  | some idx =>
      let final_flux : ℚ :=
        if g.time.length ≤ idx + 20 then 0 else g.time.getD (idx + 20) 0
      some (decide (min_flux_level < final_flux))
  | none => none

/-- A row of `launches_df` as seen by `drop_na`: only the two columns in the
`dropna` subset matter, the rest is carried opaquely. -/
structure FinalRow where
  flare_ID : ℤ
  hic_max : Option ℚ
  hic_mean : Option ℚ
  longDuration : Option Bool
deriving DecidableEq

/-- Lines 185-193 (`drop_na`):
`launches_df.dropna(subset=['Max_HiC', 'LongDuration'])` — keep exactly the
rows whose `Max_HiC` and `LongDuration` cells are both non-`nan`. -/
def drop_na (rows : List FinalRow) : List FinalRow :=
  rows.filter fun r => r.hic_max.isSome && r.longDuration.isSome

/-! ### Helper lemmas about the search primitives -/

theorem firstIdxFrom_eq_some {p : ℕ → Bool} :
    ∀ {fuel start j : ℕ}, firstIdxFrom p fuel start = some j →
      start ≤ j ∧ j < start + fuel ∧ p j = true ∧
        ∀ k, start ≤ k → k < j → p k = false := by
  intro fuel
  induction fuel with
  | zero => intro start j h; simp [firstIdxFrom] at h
  | succ n ih =>
    intro start j h
    rw [firstIdxFrom] at h
    by_cases hp : p start
    · rw [if_pos hp] at h
      obtain rfl : start = j := by simpa using h
      exact ⟨Nat.le_refl _, by omega, hp, fun k hk1 hk2 => absurd hk1 (by omega)⟩
    · rw [if_neg hp] at h
      obtain ⟨h1, h2, h3, h4⟩ := ih h
      refine ⟨by omega, by omega, h3, fun k hk1 hk2 => ?_⟩
      rcases Nat.eq_or_lt_of_le hk1 with hk | hk
      · subst hk; simpa using hp
      · exact h4 k hk hk2

theorem firstIdxFrom_eq_none {p : ℕ → Bool} :
    ∀ {fuel start : ℕ}, firstIdxFrom p fuel start = none →
      ∀ k, start ≤ k → k < start + fuel → p k = false := by
  intro fuel
  induction fuel with
  | zero => intro start _ k hk1 hk2; omega
  | succ n ih =>
    intro start h k hk1 hk2
    rw [firstIdxFrom] at h
    by_cases hp : p start
    · rw [if_pos hp] at h; exact absurd h (by simp)
    · rw [if_neg hp] at h
      rcases Nat.eq_or_lt_of_le hk1 with hk | hk
      · subst hk; simpa using hp
      · exact ih h k hk (by omega)

theorem firstIdxBelow_eq_some {p : ℕ → Bool} {n j : ℕ}
    (h : firstIdxBelow p n = some j) :
    j < n ∧ p j = true ∧ ∀ k, k < j → p k = false := by
  obtain ⟨_, h2, h3, h4⟩ := firstIdxFrom_eq_some h
  exact ⟨by omega, h3, fun k hk => h4 k (Nat.zero_le _) hk⟩

theorem firstIdxBelow_eq_none {p : ℕ → Bool} {n : ℕ}
    (h : firstIdxBelow p n = none) : ∀ k, k < n → p k = false :=
  fun k hk => firstIdxFrom_eq_none h k (Nat.zero_le _) (by omega)

/-- With pairwise distinct threshold values no column collides, so every pair
survives into the conjunction. -/
theorem survivingPairs_of_distinct :
    ∀ {pairs : List (List ℚ × ℚ)},
      pairs.Pairwise (fun a b => a.2 ≠ b.2) → survivingPairs pairs = pairs := by
  intro pairs h
  induction pairs with
  | nil => rfl
  | cons q rest ih =>
    rw [List.pairwise_cons] at h
    have hn : ¬ (rest.any fun r => decide (r.2 = q.2)) = true := by
      intro hany
      obtain ⟨r, hr, hrq⟩ := List.any_eq_true.mp hany
      exact h.1 r hr (of_decide_eq_true hrq).symm
    rw [survivingPairs, if_neg hn, ih h.2]

theorem le_foldl_max : ∀ (xs : List ℚ) (a : ℚ), a ≤ xs.foldl max a := by
  intro xs
  induction xs with
  | nil => intro a; exact le_refl a
  | cons x xs ih =>
    intro a
    calc a ≤ max a x := le_max_left a x
    _ ≤ (x :: xs).foldl max a := by simpa [List.foldl] using ih (max a x)

theorem foldl_max_le_of_mem : ∀ {xs : List ℚ} {x : ℚ} (a : ℚ),
    x ∈ xs → x ≤ xs.foldl max a := by
  intro xs
  induction xs with
  | nil => intro x a hx; simp at hx
  | cons y ys ih =>
    intro x a hx
    rcases List.mem_cons.mp hx with hx | hx
    · subst hx
      calc x ≤ max a x := le_max_right a x
      _ ≤ (x :: ys).foldl max a := by simpa [List.foldl] using le_foldl_max ys (max a x)
    · simpa [List.foldl] using ih (max a y) hx

theorem foldl_max_mem : ∀ (xs : List ℚ) (a : ℚ),
    xs.foldl max a = a ∨ xs.foldl max a ∈ xs := by
  intro xs
  induction xs with
  | nil => intro a; left; rfl
  | cons x xs ih =>
    intro a
    have hfold : (x :: xs).foldl max a = xs.foldl max (max a x) := by simp [List.foldl]
    rcases ih (max a x) with h | h
    · rcases max_choice a x with hm | hm
      · left; rw [hfold, h, hm]
      · right; rw [hfold, h, hm]; exact List.mem_cons_self x xs
    · right; rw [hfold]; exact List.mem_cons_of_mem x h

theorem listMax_mem {l : List ℚ} (h : l ≠ []) : listMax l ∈ l := by
  cases l with
  | nil => exact absurd rfl h
  | cons x xs =>
    rcases foldl_max_mem xs x with h2 | h2
    · rw [listMax, h2]; exact List.mem_cons_self x xs
    · rw [listMax]; exact List.mem_cons_of_mem x h2

theorem le_listMax {l : List ℚ} {x : ℚ} (h : x ∈ l) : x ≤ listMax l := by
  cases l with
  | nil => simp at h
  | cons y ys =>
    rcases List.mem_cons.mp h with hx | hx
    · subst hx; exact le_foldl_max ys x
    · exact foldl_max_le_of_mem y hx

theorem sliceClip_eq_nil_iff {l : List ℚ} {a b : ℕ} (hab : a < b) :
    sliceClip l a b = [] ↔ l.length ≤ a := by
  unfold sliceClip
  rw [List.take_eq_nil_iff]
  constructor
  · rintro (h | h)
    · omega
    · exact List.drop_eq_nil_iff.mp h
  · intro h; right; exact List.drop_eq_nil_iff.mpr h

theorem sliceClip_length {l : List ℚ} {a b : ℕ} :
    (sliceClip l a b).length = min (b - a) (l.length - a) := by
  simp [sliceClip]

/-- Inversion for `observeWindow`: either the slice is empty and all three
cells are `nan`, or the two timestamp reads succeeded and the cells hold the
slice maximum, the slice mean, and the peak-timing boolean. -/
theorem observeWindow_eq_some {fl : Flare} {a : ℕ}
    {trip : Option ℚ × Option ℚ × Option Bool}
    (h : observeWindow fl a = some trip) :
    (sliceClip fl.xrsb a (a + 6) = [] ∧ trip = (none, none, none)) ∨
    (sliceClip fl.xrsb a (a + 6) ≠ [] ∧ ∃ t14 ts,
      fl.time.get? 14 = some t14 ∧ fl.time.get? a = some ts ∧
      trip = (some (listMax (sliceClip fl.xrsb a (a + 6))),
        some (listMean (sliceClip fl.xrsb a (a + 6))),
        some (decide (t14 < ts) && decide (ts < fl.peak_time)))) := by
  unfold observeWindow at h
  by_cases he : sliceClip fl.xrsb a (a + 6) = []
  · left
    refine ⟨he, ?_⟩
    simp only [he, if_pos] at h
    simpa using h.symm
  · right
    refine ⟨he, ?_⟩
    simp only [if_neg he] at h
    cases h14 : fl.time.get? 14 with
    | none => rw [h14] at h; simp at h
    | some t14 =>
      cases ha : fl.time.get? a with
      | none => rw [h14, ha] at h; simp at h
      | some ts =>
        rw [h14, ha] at h
        simp only [Option.some.injEq] at h
        exact ⟨t14, ts, rfl, rfl, h.symm⟩

/-- If `observeWindow` aborts, it is because a timestamp read was out of
range with a nonempty slice. -/
theorem observeWindow_total {fl : Flare} {a : ℕ}
    (hne : sliceClip fl.xrsb a (a + 6) ≠ [] → 14 < fl.time.length ∧ a < fl.time.length) :
    ∃ trip, observeWindow fl a = some trip := by
  unfold observeWindow
  by_cases he : sliceClip fl.xrsb a (a + 6) = []
  · exact ⟨(none, none, none), by simp [he]⟩
  · obtain ⟨h14, ha⟩ := hne he
    refine ⟨(some (listMax (sliceClip fl.xrsb a (a + 6))),
      some (listMean (sliceClip fl.xrsb a (a + 6))),
      some (decide (fl.time.get ⟨14, h14⟩ < fl.time.get ⟨a, ha⟩) &&
        decide (fl.time.get ⟨a, ha⟩ < fl.peak_time))), ?_⟩
    rw [List.get?_eq_get h14, List.get?_eq_get ha, if_neg he]

/-- Projections of a successfully produced launch row. -/
theorem calculate_eq_some {fl : Flare} {t : ℕ} {row : LaunchRow}
    (h : calculate_observed_xrsb_and_cancellation fl t = some row) :
    row.flare_ID = fl.flare_ID ∧
    row.cancellation = cancellationOf fl t ∧
    fl.time.get? t = some row.trigger_time ∧
    observeWindow fl (t + 3 + 4 + 2) = some (row.hic_max, row.hic_mean, row.peak_bool) := by
  unfold calculate_observed_xrsb_and_cancellation at h
  cases ho : observeWindow fl (t + 3 + 4 + 2) with
  | none => rw [ho] at h; simp at h
  | some trip =>
    obtain ⟨hmax, hmean, pk⟩ := trip
    cases ht : fl.time.get? t with
    | none => rw [ho, ht] at h; simp at h
    | some trig =>
      rw [ho, ht] at h
      simp only [Option.some.injEq] at h
      subst h
      exact ⟨rfl, rfl, rfl, rfl⟩

/-! ### Claim theorems -/

/-- Claim C1 counterexample: for the pair list `[([10, 0], 5), ([0, 10], 5)]`
the code triggers at index 1, yet the first pair — a supplied
(series, threshold) pair — is not at threshold there (`[10, 0]` has value 0 at
index 1, below 5): the two columns collide on the threshold value 5, so only
the last series is checked and the claimed conjunction over every supplied
pair does not hold at the trigger index. -/
theorem C1_conjunction_counterexample :
    flareloop_check_if_value_surpassed (.multi [([10, 0], 5), ([0, 10], 5)]) =
      some ⟨1, 10, 16⟩ ∧
    (([10, 0], 5) : List ℚ × ℚ) ∈ ([([10, 0], 5), ([0, 10], 5)] : List (List ℚ × ℚ)) ∧
    ¬ (5 : ℚ) ≤ ([10, 0] : List ℚ).getD 1 0 :=
  ⟨by decide, by decide, by decide⟩

/-- Claim C1 amended: if trigger detection reports triggered then the trigger
index is the earliest index satisfying the condition (strict `>` of the series
over a scalar threshold; for a pair list with pairwise distinct threshold
values, conjunction of `≥` over all (series, threshold) pairs), no earlier
index satisfies it, and if no index satisfies the condition the detection
reports not triggered.  With duplicated threshold values only the last pair
per value is checked (column-name collision, see `survivingPairs`). -/
theorem C1_trigger_earliest_index :
    (∀ (arr : List ℚ) (p : ℚ) (w : TriggerWindow),
        flareloop_check_if_value_surpassed (.scalar arr p) = some w →
          w.trigger_index < arr.length ∧ p < arr.getD w.trigger_index 0 ∧
            ∀ j < w.trigger_index, ¬ p < arr.getD j 0) ∧
    (∀ (arr : List ℚ) (p : ℚ),
        flareloop_check_if_value_surpassed (.scalar arr p) = none →
          ∀ j < arr.length, ¬ p < arr.getD j 0) ∧
    (∀ (arr₀ : List ℚ) (p₀ : ℚ) (rest : List (List ℚ × ℚ)) (w : TriggerWindow),
        ((arr₀, p₀) :: rest).Pairwise (fun a b => a.2 ≠ b.2) →
        (∀ q ∈ (arr₀, p₀) :: rest, q.1.length = arr₀.length) →
        flareloop_check_if_value_surpassed (.multi ((arr₀, p₀) :: rest)) = some w →
          w.trigger_index < arr₀.length ∧
            (∀ q ∈ (arr₀, p₀) :: rest, q.2 ≤ q.1.getD w.trigger_index 0) ∧
            ∀ j < w.trigger_index, ∃ q ∈ (arr₀, p₀) :: rest, ¬ q.2 ≤ q.1.getD j 0) ∧
    (∀ (arr₀ : List ℚ) (p₀ : ℚ) (rest : List (List ℚ × ℚ)),
        ((arr₀, p₀) :: rest).Pairwise (fun a b => a.2 ≠ b.2) →
        (∀ q ∈ (arr₀, p₀) :: rest, q.1.length = arr₀.length) →
        flareloop_check_if_value_surpassed (.multi ((arr₀, p₀) :: rest)) = none →
          ∀ j < arr₀.length, ∃ q ∈ (arr₀, p₀) :: rest, ¬ q.2 ≤ q.1.getD j 0) := by
  refine ⟨?_, ?_, ?_, ?_⟩
  · intro arr p w h
    simp only [flareloop_check_if_value_surpassed] at h
    obtain ⟨t, ht, hw⟩ := Option.map_eq_some'.mp h
    obtain ⟨h1, h2, h3⟩ := firstIdxBelow_eq_some ht
    subst hw
    refine ⟨h1, of_decide_eq_true h2, fun j hj => ?_⟩
    simpa using h3 j hj
  · intro arr p h
    simp only [flareloop_check_if_value_surpassed, Option.map_eq_none'] at h
    intro j hj
    simpa using firstIdxBelow_eq_none h j hj
  · intro arr₀ p₀ rest w hdist _ h
    simp only [flareloop_check_if_value_surpassed] at h
    rw [survivingPairs_of_distinct hdist] at h
    obtain ⟨t, ht, hw⟩ := Option.map_eq_some'.mp h
    obtain ⟨h1, h2, h3⟩ := firstIdxBelow_eq_some ht
    subst hw
    refine ⟨h1, fun q hq => ?_, fun j hj => ?_⟩
    · simpa using List.all_eq_true.mp h2 q hq
    · obtain ⟨q, hq, hqf⟩ := List.all_eq_false.mp (h3 j hj)
      exact ⟨q, hq, by simpa using hqf⟩
  · intro arr₀ p₀ rest hdist _ h
    simp only [flareloop_check_if_value_surpassed, Option.map_eq_none'] at h
    rw [survivingPairs_of_distinct hdist] at h
    intro j hj
    obtain ⟨q, hq, hqf⟩ := List.all_eq_false.mp (firstIdxBelow_eq_none h j hj)
    exact ⟨q, hq, by simpa using hqf⟩

/-- Claim C1 amended witness: scalar threshold 3 on `[1, 5, 2]` triggers at
index 1 with no earlier crossing; the pair list `[([1, 5], 2), ([0, 7], 6)]`
(distinct thresholds 2 and 6) triggers at index 1 with every channel at
threshold and a failing channel at index 0. -/
theorem C1_trigger_earliest_index_witness :
    ((3 : ℚ) < ([1, 5, 2] : List ℚ).getD 1 0 ∧
      ¬ (3 : ℚ) < ([1, 5, 2] : List ℚ).getD 0 0) ∧
    ((2 : ℚ) ≤ ([1, 5] : List ℚ).getD 1 0) ∧
    ((6 : ℚ) ≤ ([0, 7] : List ℚ).getD 1 0) ∧
    (∃ q ∈ ([([1, 5], 2), ([0, 7], 6)] : List (List ℚ × ℚ)),
      ¬ q.2 ≤ q.1.getD 0 0) := by
  have hs := C1_trigger_earliest_index.1 [1, 5, 2] 3 ⟨1, 10, 16⟩ (by decide)
  have hm := C1_trigger_earliest_index.2.2.1 [1, 5] 2 [([0, 7], 6)] ⟨1, 10, 16⟩
    (by decide) (by decide) (by decide)
  exact ⟨⟨hs.2.1, hs.2.2 0 (by decide)⟩, hm.2.1 ([1, 5], 2) (by simp),
    hm.2.1 ([0, 7], 6) (by simp), hm.2.2 0 (by decide)⟩

/-- Claim C2: whenever a flare triggers (either threshold shape), the
observation window satisfies `hic_obs_start = trigger_index + 9` and
`hic_obs_end = hic_obs_start + 6`. -/
theorem C2_observation_window_offsets :
    ∀ (s : ThresholdSpec) (w : TriggerWindow),
      flareloop_check_if_value_surpassed s = some w →
        w.hic_obs_start = w.trigger_index + 9 ∧ w.hic_obs_end = w.hic_obs_start + 6 := by
  intro s w h
  have hw : ∃ t, w = mkWindow t := by
    cases s with
    | scalar arr p =>
      simp only [flareloop_check_if_value_surpassed] at h
      obtain ⟨t, _, hw⟩ := Option.map_eq_some'.mp h
      exact ⟨t, hw.symm⟩
    | multi pairs =>
      cases pairs with
      | nil => simp [flareloop_check_if_value_surpassed] at h
      | cons q rest =>
        obtain ⟨a₀, p₀⟩ := q
        simp only [flareloop_check_if_value_surpassed] at h
        obtain ⟨t, _, hw⟩ := Option.map_eq_some'.mp h
        exact ⟨t, hw.symm⟩
  obtain ⟨t, rfl⟩ := hw
  exact ⟨show t + 3 + 4 + 2 = t + 9 by omega, rfl⟩

/-- Claim C2 witness: the scalar threshold 3 on `[1, 5, 2]` triggers with
window `⟨1, 10, 16⟩`, and `10 = 1 + 9`, `16 = 10 + 6`. -/
theorem C2_observation_window_offsets_witness :
    (⟨1, 10, 16⟩ : TriggerWindow).hic_obs_start =
      (⟨1, 10, 16⟩ : TriggerWindow).trigger_index + 9 ∧
    (⟨1, 10, 16⟩ : TriggerWindow).hic_obs_end =
      (⟨1, 10, 16⟩ : TriggerWindow).hic_obs_start + 6 :=
  C2_observation_window_offsets (.scalar [1, 5, 2] 3) ⟨1, 10, 16⟩ (by decide)

/-- Claim C3: for every produced launch row, the cancellation cell is the
`nan` sentinel iff `trigger_index + 3` is past the end of `xrsa`; otherwise it
is true iff `xrsa[trigger_index + 3]` is strictly smaller than
`xrsa[trigger_index]`. -/
theorem C3_cancellation_pure_function :
    ∀ (fl : Flare) (t : ℕ) (row : LaunchRow),
      calculate_observed_xrsb_and_cancellation fl t = some row →
        (row.cancellation = none ↔ fl.xrsa.length ≤ t + 3) ∧
        (∀ b, row.cancellation = some b →
          (b = true ↔ fl.xrsa.getD (t + 3) 0 < fl.xrsa.getD t 0)) := by
  intro fl t row h
  have hc := (calculate_eq_some h).2.1
  rw [hc]
  unfold cancellationOf
  by_cases hg : t + 3 < fl.xrsa.length
  · rw [if_pos hg]
    refine ⟨by simp; omega, fun b hb => ?_⟩
    simp only [Option.some.injEq] at hb
    subst hb
    simp [sub_neg]
  · rw [if_neg hg]
    exact ⟨by simp; omega, fun b hb => by simp at hb⟩

/-- Concrete 20-sample flare used to exercise Claim C3. -/
def flare3 : Flare :=
  { flare_ID := 3
    time := [0, 1, 2, 3, 4, 5, 6, 7, 8, 9, 10, 11, 12, 13, 14, 15, 16, 17, 18, 19]
    xrsa := [5, 4, 3, 2, 1, 1, 1, 1, 1, 1, 1, 1, 1, 1, 1, 1, 1, 1, 1, 1]
    xrsb := [1, 1, 1, 1, 1, 1, 1, 1, 1, 2, 3, 4, 5, 6, 7, 8, 1, 1, 1, 1]
    peak_time := 100
    flare_class := "C5"
    peak_flux := 1
    start_to_peak_time := 1
    background_flux := 0 }

/-- The launch row produced for `flare3` triggering at index 0. -/
def row3 : LaunchRow := ⟨3, some true, 0, some false, some 7, some (9 / 2)⟩

theorem flare3_calc : calculate_observed_xrsb_and_cancellation flare3 0 = some row3 := by
  norm_num [calculate_observed_xrsb_and_cancellation, observeWindow, cancellationOf,
    sliceClip, listMax, listMean, flare3, row3]
  rfl

/-- Claim C3 witness: for `flare3` triggering at index 0 the cancellation cell
is not the sentinel (`0 + 3` is in range) and `xrsa[3] < xrsa[0]` holds, as the
stored `some true` demands. -/
theorem C3_cancellation_pure_function_witness :
    (row3.cancellation = none ↔ flare3.xrsa.length ≤ 0 + 3) ∧
    flare3.xrsa.getD (0 + 3) 0 < flare3.xrsa.getD 0 0 := by
  have h := C3_cancellation_pure_function flare3 0 row3 flare3_calc
  exact ⟨h.1, (h.2 true rfl).mp rfl⟩

/-- Claim C4: for every produced launch row, the observation slice over
`[t + 9, t + 15)` is empty iff the window starts past the series end; if it is
empty, max, mean and peak cells are all the `nan` sentinel; otherwise the max
cell holds the maximum of the slice and the mean cell its arithmetic mean. -/
theorem C4_empty_slice_unknown :
    ∀ (fl : Flare) (t : ℕ) (row : LaunchRow),
      calculate_observed_xrsb_and_cancellation fl t = some row →
        (sliceClip fl.xrsb (t + 9) (t + 15) = [] ↔ fl.xrsb.length ≤ t + 9) ∧
        (sliceClip fl.xrsb (t + 9) (t + 15) = [] →
          row.hic_max = none ∧ row.hic_mean = none ∧ row.peak_bool = none) ∧
        (sliceClip fl.xrsb (t + 9) (t + 15) ≠ [] →
          (∃ m, row.hic_max = some m ∧ m ∈ sliceClip fl.xrsb (t + 9) (t + 15) ∧
            ∀ x ∈ sliceClip fl.xrsb (t + 9) (t + 15), x ≤ m) ∧
          row.hic_mean = some ((sliceClip fl.xrsb (t + 9) (t + 15)).sum /
            ((sliceClip fl.xrsb (t + 9) (t + 15)).length : ℚ))) := by
  intro fl t row h
  have ho := (calculate_eq_some h).2.2.2
  rw [show t + 3 + 4 + 2 = t + 9 from by omega] at ho
  have hs : sliceClip fl.xrsb (t + 9) ((t + 9) + 6) = sliceClip fl.xrsb (t + 9) (t + 15) := by
    rw [show (t + 9) + 6 = t + 15 from by omega]
  refine ⟨sliceClip_eq_nil_iff (by omega), ?_, ?_⟩
  · intro hempty
    rcases observeWindow_eq_some ho with ⟨_, htrip⟩ | ⟨hne, _, _, _, _, _⟩
    · simpa [Prod.ext_iff] using htrip
    · rw [hs] at hne; exact absurd hempty hne
  · intro hne
    rcases observeWindow_eq_some ho with ⟨hempty, _⟩ | ⟨_, t14, ts, _, _, htrip⟩
    · rw [hs] at hempty; exact absurd hempty hne
    · rw [hs] at htrip
      obtain ⟨hmax, hmean, _⟩ : row.hic_max = some (listMax (sliceClip fl.xrsb (t + 9) (t + 15))) ∧
          row.hic_mean = some (listMean (sliceClip fl.xrsb (t + 9) (t + 15))) ∧
          row.peak_bool = some (decide (t14 < ts) && decide (ts < fl.peak_time)) := by
        simpa [Prod.ext_iff] using htrip
      exact ⟨⟨listMax (sliceClip fl.xrsb (t + 9) (t + 15)), hmax, listMax_mem hne,
        fun x hx => le_listMax hx⟩, hmean⟩

/-- Concrete 5-sample flare whose observation window lies entirely beyond the
series, used to exercise Claim C4. -/
def flare4 : Flare :=
  { flare_ID := 4
    time := [7, 8, 9, 10, 11]
    xrsa := [1, 2, 3, 4, 5]
    xrsb := [9, 9, 9, 9, 9]
    peak_time := 50
    flare_class := "M1"
    peak_flux := 2
    start_to_peak_time := 1
    background_flux := 0 }

/-- The launch row produced for `flare4` triggering at index 4: all three
observation cells are the sentinel and so is cancellation. -/
def row4 : LaunchRow := ⟨4, none, 11, none, none, none⟩

/-- Claim C4 witness: `flare4` triggering at index 4 has an empty observation
slice and every observation cell of its row is the sentinel. -/
theorem C4_empty_slice_unknown_witness :
    (sliceClip flare4.xrsb (4 + 9) (4 + 15) = [] ↔ flare4.xrsb.length ≤ 4 + 9) ∧
    (row4.hic_max = none ∧ row4.hic_mean = none ∧ row4.peak_bool = none) := by
  have h := C4_empty_slice_unknown flare4 4 row4 (by decide)
  exact ⟨h.1, h.2.1 (by decide)⟩

/-- Concrete 20-sample flare whose true peak time `29/2` lies strictly between
`time[14] = 14` and `time[15] = 15`, the timestamp at the observation start
for a trigger at index 6. -/
def flare5 : Flare :=
  { flare_ID := 5
    time := [0, 1, 2, 3, 4, 5, 6, 7, 8, 9, 10, 11, 12, 13, 14, 15, 16, 17, 18, 19]
    xrsa := [1, 1, 1, 1, 1, 1, 1, 1, 1, 1, 1, 1, 1, 1, 1, 1, 1, 1, 1, 1]
    xrsb := [1, 1, 1, 1, 1, 1, 1, 1, 1, 1, 1, 1, 1, 1, 1, 1, 1, 1, 1, 1]
    peak_time := 29 / 2
    flare_class := "X1"
    peak_flux := 3
    start_to_peak_time := 1
    background_flux := 0 }

/-- The launch row produced for `flare5` triggering at index 6. -/
def row5 : LaunchRow := ⟨5, some false, 6, some false, some 1, some 1⟩

theorem flare5_calc : calculate_observed_xrsb_and_cancellation flare5 6 = some row5 := by
  norm_num [calculate_observed_xrsb_and_cancellation, observeWindow, cancellationOf,
    sliceClip, listMax, listMean, flare5, row5]
  rfl

/-- Claim C5 counterexample: for `flare5` triggering at index 6, the true peak
time falls strictly between `time[14]` and the timestamp at the observation
start, yet the code stores `peak_bool = some false` (the code requires
`time[14] < time[start] < peak_time`, not `time[14] < peak_time <
time[start]`). -/
theorem C5_peak_observed_counterexample :
    calculate_observed_xrsb_and_cancellation flare5 6 = some row5 ∧
    row5.peak_bool = some false ∧
    flare5.time.getD 14 0 < flare5.peak_time ∧
    flare5.peak_time < flare5.time.getD (6 + 9) 0 :=
  ⟨flare5_calc, rfl, by norm_num [flare5], by norm_num [flare5]⟩

/-- Claim C5 amended: for every produced launch row with a nonempty
observation slice, `peak_bool` is true iff the timestamp at the observation
start falls strictly between the fixed reference sample `time[14]` and the
flare's true peak time: `time[14] < time[t + 9]` and
`time[t + 9] < peak_time`. -/
theorem C5_peak_observed_amended :
    ∀ (fl : Flare) (t : ℕ) (row : LaunchRow),
      calculate_observed_xrsb_and_cancellation fl t = some row →
      sliceClip fl.xrsb (t + 9) (t + 15) ≠ [] →
        ∃ t14 ts, fl.time.get? 14 = some t14 ∧ fl.time.get? (t + 9) = some ts ∧
          (row.peak_bool = some true ↔ (t14 < ts ∧ ts < fl.peak_time)) := by
  intro fl t row h hne
  have ho := (calculate_eq_some h).2.2.2
  rw [show t + 3 + 4 + 2 = t + 9 from by omega] at ho
  rcases observeWindow_eq_some ho with ⟨hempty, _⟩ | ⟨_, t14, ts, h14, hts, htrip⟩
  · rw [show (t + 9) + 6 = t + 15 from by omega] at hempty
    exact absurd hempty hne
  · refine ⟨t14, ts, h14, hts, ?_⟩
    obtain ⟨-, -, hpk⟩ : row.hic_max = some (listMax (sliceClip fl.xrsb (t + 9) (t + 9 + 6))) ∧
        row.hic_mean = some (listMean (sliceClip fl.xrsb (t + 9) (t + 9 + 6))) ∧
        row.peak_bool = some (decide (t14 < ts) && decide (ts < fl.peak_time)) := by
      simpa [Prod.ext_iff] using htrip
    rw [hpk]
    simp [Bool.and_eq_true, decide_eq_true_eq]

/-- Claim C5 amended witness: for `flare5` at trigger index 6 the stored
`peak_bool` (false) matches the amended condition, which fails because
`time[15] = 15` is not below the peak time `29/2`. -/
theorem C5_peak_observed_amended_witness :
    ∃ t14 ts, flare5.time.get? 14 = some t14 ∧ flare5.time.get? (6 + 9) = some ts ∧
      (row5.peak_bool = some true ↔ (t14 < ts ∧ ts < flare5.peak_time)) :=
  C5_peak_observed_amended flare5 6 row5 flare5_calc (by decide)

/-- Concrete flare for Claim C6: time stamps in seconds (one per minute),
both flux channels constantly `1e-6`, peak flux `1e-2` and peak time `60`
(sample index 1, so the `+20` lookahead index 21 is in range). -/
def flare6 : Flare :=
  { flare_ID := 6
    time := [0, 60, 120, 180, 240, 300, 360, 420, 480, 540, 600, 660, 720, 780,
      840, 900, 960, 1020, 1080, 1140, 1200, 1260, 1320, 1380, 1440, 1500]
    xrsa := List.replicate 26 (1 / 1000000)
    xrsb := List.replicate 26 (1 / 1000000)
    peak_time := 60
    flare_class := "M5"
    peak_flux := 1 / 100
    start_to_peak_time := 1
    background_flux := 0 }

/-- Claim C6: the code computes the long-duration flag from the `time` array,
not a flux array.  For `flare6` every flux sample (channels `xrsa`, `xrsb`,
both constantly `1e-6`) is strictly below the 20%-of-peak bar `1/500`, so the
flag demanded by the claim is false; yet `longDurationFlag` returns
`some true`, because line 168 of the source reads
`self.data['time'][...][peak_time_indx[0]+20]` (a timestamp, here 1260). -/
theorem C6_long_duration_reads_time_array :
    longDurationFlag flare6 = some true ∧
    flare6.xrsb = List.replicate 26 (1 / 1000000) ∧
    flare6.xrsa = List.replicate 26 (1 / 1000000) ∧
    (1 : ℚ) / 1000000 < flare6.peak_flux * (2 / 10) := by
  refine ⟨?_, rfl, rfl, by norm_num [flare6]⟩
  have hidx : firstIdxBelow
      (fun i => decide (flare6.time.getD i 0 = flare6.peak_time)) flare6.time.length
      = some 1 := by decide
  simp only [longDurationFlag, hidx]
  norm_num [flare6]

/-- Claim C7: every row surviving `drop_na` has a non-sentinel `Max_HiC` cell
and a non-sentinel `LongDuration` cell. -/
theorem C7_drop_na_no_unknown :
    ∀ (rows : List FinalRow) (r : FinalRow),
      r ∈ drop_na rows → r.hic_max ≠ none ∧ r.longDuration ≠ none := by
  intro rows r hr
  obtain ⟨_, hp⟩ := List.mem_filter.mp hr
  rw [Bool.and_eq_true] at hp
  exact ⟨Option.ne_none_iff_isSome.mpr hp.1, Option.ne_none_iff_isSome.mpr hp.2⟩

/-- A two-row table, the second row carrying a sentinel `Max_HiC`. -/
def rows7 : List FinalRow :=
  [⟨1, some 5, some 5, some true⟩, ⟨2, none, some 5, some true⟩]

/-- Claim C7 witness: the surviving first row of `rows7` has both cells
non-sentinel. -/
theorem C7_drop_na_no_unknown_witness :
    (⟨1, some 5, some 5, some true⟩ : FinalRow).hic_max ≠ none ∧
    (⟨1, some 5, some 5, some true⟩ : FinalRow).longDuration ≠ none :=
  C7_drop_na_no_unknown rows7 ⟨1, some 5, some 5, some true⟩ (by decide)

/-- Concrete 10-sample flare: every series is 10 samples long and index 0
triggers the scalar threshold 1 on `xrsb`. -/
def flare8 : Flare :=
  { flare_ID := 8
    time := [0, 1, 2, 3, 4, 5, 6, 7, 8, 9]
    xrsa := [3, 3, 3, 3, 3, 3, 3, 3, 3, 3]
    xrsb := [2, 2, 2, 2, 2, 2, 2, 2, 2, 2]
    peak_time := 5
    flare_class := "C1"
    peak_flux := 1
    start_to_peak_time := 1
    background_flux := 0 }

/-- Claim C8 counterexample: `flare8` (all series 10 samples, index-aligned)
triggers at index 0, its observation slice `[9, 15)` is nonempty, and the
simulation aborts (`none`, an out-of-range IndexError on the unguarded
`time[14]` read of line 122) instead of producing a row. -/
theorem C8_totality_counterexample :
    flareloop_check_if_value_surpassed (.scalar flare8.xrsb 1) = some ⟨0, 9, 15⟩ ∧
    flare8.time.length = flare8.xrsb.length ∧
    calculate_observed_xrsb_and_cancellation flare8 0 = none := by
  refine ⟨by decide, rfl, by decide⟩

/-- Shared totality core: with index-aligned `time`/`xrsb`, a valid trigger
index and at least 15 samples, the simulation produces a row. -/
theorem calculate_total {fl : Flare} {t : ℕ} (hlen : fl.time.length = fl.xrsb.length)
    (ht : t < fl.time.length) (h15 : 15 ≤ fl.time.length) :
    ∃ row, calculate_observed_xrsb_and_cancellation fl t = some row ∧
      observeWindow fl (t + 3 + 4 + 2) = some (row.hic_max, row.hic_mean, row.peak_bool) := by
  have hcond : sliceClip fl.xrsb (t + 3 + 4 + 2) ((t + 3 + 4 + 2) + 6) ≠ [] →
      14 < fl.time.length ∧ t + 3 + 4 + 2 < fl.time.length := by
    intro hne
    have hlt : ¬ fl.xrsb.length ≤ t + 3 + 4 + 2 := fun hle =>
      hne ((sliceClip_eq_nil_iff (by omega)).mpr hle)
    constructor <;> omega
  obtain ⟨trip, htrip⟩ := observeWindow_total hcond
  obtain ⟨hmax, hmean, pk⟩ := trip
  refine ⟨⟨fl.flare_ID, cancellationOf fl t, fl.time.get ⟨t, ht⟩, pk, hmax, hmean⟩, ?_, htrip⟩
  unfold calculate_observed_xrsb_and_cancellation
  rw [htrip, List.get?_eq_get ht]

/-- Claim C8 amended: provided the series are index-aligned, the trigger index
is valid and the flare has at least 15 samples (so the fixed reference read
`time[14]` of the nonempty-slice branch is in range), the per-flare simulation
is total, and an out-of-range observation window or cancellation lookahead is
recovered as the `nan` sentinel, never a default. -/
theorem C8_totality_amended :
    ∀ (fl : Flare) (t : ℕ),
      fl.time.length = fl.xrsb.length → t < fl.time.length → 15 ≤ fl.time.length →
        ∃ row, calculate_observed_xrsb_and_cancellation fl t = some row ∧
          (fl.xrsb.length ≤ t + 9 →
            row.hic_max = none ∧ row.hic_mean = none ∧ row.peak_bool = none) ∧
          (fl.xrsa.length ≤ t + 3 → row.cancellation = none) := by
  intro fl t hlen ht h15
  obtain ⟨row, hcalc, htrip⟩ := calculate_total hlen ht h15
  refine ⟨row, hcalc, ?_, ?_⟩
  · intro hle
    have hempty : sliceClip fl.xrsb (t + 3 + 4 + 2) ((t + 3 + 4 + 2) + 6) = [] :=
      (sliceClip_eq_nil_iff (by omega)).mpr (by omega)
    rcases observeWindow_eq_some htrip with ⟨_, htr⟩ | ⟨hne, _⟩
    · obtain ⟨h1, h2, h3⟩ :
          row.hic_max = none ∧ row.hic_mean = none ∧ row.peak_bool = none := by
        simpa [Prod.ext_iff] using htr
      exact ⟨h1, h2, h3⟩
    · exact absurd hempty hne
  · intro hle
    rw [(calculate_eq_some hcalc).2.1]
    unfold cancellationOf
    rw [if_neg (by omega)]

/-- Flare for the Claim C8 amended witness: `time`/`xrsb` have 15 aligned
samples, `xrsa` only 10; a trigger at index 7 puts the window and the
cancellation lookahead out of range, and both cells come back as sentinels. -/
def flare8w : Flare :=
  { flare_ID := 80
    time := [0, 1, 2, 3, 4, 5, 6, 7, 8, 9, 10, 11, 12, 13, 14]
    xrsa := [1, 1, 1, 1, 1, 1, 1, 1, 1, 1]
    xrsb := [4, 4, 4, 4, 4, 4, 4, 4, 4, 4, 4, 4, 4, 4, 4]
    peak_time := 5
    flare_class := "C2"
    peak_flux := 1
    start_to_peak_time := 1
    background_flux := 0 }

/-- Claim C8 amended witness: for `flare8w` at trigger index 7 the simulation
produces a row whose out-of-range window and lookahead cells are sentinels. -/
theorem C8_totality_amended_witness :
    ∃ row, calculate_observed_xrsb_and_cancellation flare8w 7 = some row ∧
      (flare8w.xrsb.length ≤ 7 + 9 →
        row.hic_max = none ∧ row.hic_mean = none ∧ row.peak_bool = none) ∧
      (flare8w.xrsa.length ≤ 7 + 3 → row.cancellation = none) :=
  C8_totality_amended flare8w 7 (by decide) (by decide) (by decide)

/-- Claim C9: the metadata join resolves a flare identifier to the first
matching archive record, and all joined columns come from that record, even
when later records share the identifier. -/
theorem C9_join_first_match :
    ∀ (pre rest : List Flare) (g : Flare) (fid : ℤ),
      g.flare_ID = fid → (∀ h ∈ pre, h.flare_ID ≠ fid) →
        save_fitsinfo_join (pre ++ g :: rest) fid =
          some ⟨g.flare_class, g.peak_flux, g.start_to_peak_time, g.background_flux,
            g.peak_time, (g.xrsa.length : ℤ) - 30⟩ := by
  intro pre rest g fid hg hpre
  have hfind : lookup_launched_flare (pre ++ g :: rest) fid = some g := by
    unfold lookup_launched_flare
    rw [List.find?_append]
    have h1 : List.find? (fun h => decide (h.flare_ID = fid)) pre = none := by
      rw [List.find?_eq_none]
      intro x hx
      simpa using hpre x hx
    rw [h1, List.find?_cons_of_pos _ (by simp [hg])]
    rfl
  unfold save_fitsinfo_join
  rw [hfind]
  rfl

/-- First archive record with identifier 9. -/
def flare9a : Flare :=
  { flare_ID := 9
    time := [0, 1, 2]
    xrsa := [1, 2, 3]
    xrsb := [1, 2, 3]
    peak_time := 2
    flare_class := "C9"
    peak_flux := 7
    start_to_peak_time := 1
    background_flux := 0 }

/-- Second archive record sharing identifier 9 but with different metadata. -/
def flare9b : Flare :=
  { flare_ID := 9
    time := [0, 1, 2, 3]
    xrsa := [4, 5, 6, 7]
    xrsb := [4, 5, 6, 7]
    peak_time := 3
    flare_class := "M9"
    peak_flux := 8
    start_to_peak_time := 2
    background_flux := 1 }

/-- Claim C9 witness: in the duplicate archive `[flare9a, flare9b]` the join
for identifier 9 returns `flare9a`'s metadata, although `flare9b` also
matches. -/
theorem C9_join_first_match_witness :
    save_fitsinfo_join [flare9a, flare9b] 9 =
      some ⟨flare9a.flare_class, flare9a.peak_flux, flare9a.start_to_peak_time,
        flare9a.background_flux, flare9a.peak_time, (flare9a.xrsa.length : ℤ) - 30⟩ ∧
    flare9b.flare_ID = flare9a.flare_ID ∧ flare9b.peak_flux ≠ flare9a.peak_flux := by
  refine ⟨?_, rfl, by decide⟩
  exact C9_join_first_match [] [flare9b] flare9a 9 rfl (by simp)

/-- Concrete 10-sample flare whose observation window for a trigger at index 0
partially overlaps the series: `observation_start = 9` is a valid index but
`observation_end = 15` is past the end. -/
def flare10 : Flare :=
  { flare_ID := 10
    time := [0, 1, 2, 3, 4, 5, 6, 7, 8, 9]
    xrsa := [5, 5, 5, 5, 5, 5, 5, 5, 5, 5]
    xrsb := [5, 5, 5, 5, 5, 5, 5, 5, 5, 5]
    peak_time := 3
    flare_class := "C3"
    peak_flux := 1
    start_to_peak_time := 1
    background_flux := 0 }

/-- Claim C10 counterexample: for `flare10` at trigger index 0 the window
partially overlaps the series (start 9 valid, end 15 past the end) and the
slice is nonempty, yet no numeric result is reported at all: the simulation
aborts (`none`), because the nonempty-slice branch reads `time[14]` on a
10-sample series. -/
theorem C10_partial_window_counterexample :
    0 + 9 < flare10.xrsb.length ∧ flare10.xrsb.length < 0 + 15 ∧
    sliceClip flare10.xrsb (0 + 9) (0 + 15) ≠ [] ∧
    flare10.time.length = flare10.xrsb.length ∧
    calculate_observed_xrsb_and_cancellation flare10 0 = none := by
  refine ⟨by decide, by decide, by decide, rfl, by decide⟩

/-- Claim C10 amended: provided the flare has at least 15 aligned samples, a
partially overlapping window (valid start, end past the series) yields a
nonempty truncated slice of fewer than 6 samples whose maximum and mean are
reported as numeric values, not sentinels. -/
theorem C10_partial_window_amended :
    ∀ (fl : Flare) (t : ℕ),
      fl.time.length = fl.xrsb.length → 15 ≤ fl.time.length →
      t + 9 < fl.xrsb.length → fl.xrsb.length < t + 15 →
        ∃ row, calculate_observed_xrsb_and_cancellation fl t = some row ∧
          sliceClip fl.xrsb (t + 9) (t + 15) ≠ [] ∧
          (sliceClip fl.xrsb (t + 9) (t + 15)).length < 6 ∧
          row.hic_max = some (listMax (sliceClip fl.xrsb (t + 9) (t + 15))) ∧
          row.hic_mean = some (listMean (sliceClip fl.xrsb (t + 9) (t + 15))) := by
  intro fl t hlen h15 hstart hend
  have ht : t < fl.time.length := by omega
  obtain ⟨row, hcalc, htrip⟩ := calculate_total hlen ht h15
  rw [show t + 3 + 4 + 2 = t + 9 from by omega] at htrip
  have hne : sliceClip fl.xrsb (t + 9) (t + 15) ≠ [] := by
    rw [Ne, sliceClip_eq_nil_iff (by omega)]
    omega
  rcases observeWindow_eq_some htrip with ⟨hempty, _⟩ | ⟨_, t14, ts, _, _, htr⟩
  · rw [show (t + 9) + 6 = t + 15 from by omega] at hempty
    exact absurd hempty hne
  · rw [show (t + 9) + 6 = t + 15 from by omega] at htr
    obtain ⟨hmax, hmean, -⟩ :
        row.hic_max = some (listMax (sliceClip fl.xrsb (t + 9) (t + 15))) ∧
        row.hic_mean = some (listMean (sliceClip fl.xrsb (t + 9) (t + 15))) ∧
        row.peak_bool = some (decide (t14 < ts) && decide (ts < fl.peak_time)) := by
      simpa [Prod.ext_iff] using htr
    refine ⟨row, hcalc, hne, ?_, hmax, hmean⟩
    rw [sliceClip_length]
    omega

/-- Flare for the Claim C10 amended witness: 16 aligned samples, trigger at
index 3, window `[12, 18)` truncated to 4 samples. -/
def flare10w : Flare :=
  { flare_ID := 100
    time := [0, 1, 2, 3, 4, 5, 6, 7, 8, 9, 10, 11, 12, 13, 14, 15]
    xrsa := [1, 1, 1, 1, 1, 1, 1, 1, 1, 1, 1, 1, 1, 1, 1, 1]
    xrsb := [2, 2, 2, 2, 2, 2, 2, 2, 2, 2, 2, 2, 2, 2, 2, 2]
    peak_time := 4
    flare_class := "C4"
    peak_flux := 1
    start_to_peak_time := 1
    background_flux := 0 }

/-- Claim C10 amended witness: for `flare10w` at trigger index 3 the truncated
slice is nonempty, shorter than 6 samples, and its maximum and mean are
reported numerically. -/
theorem C10_partial_window_amended_witness :
    ∃ row, calculate_observed_xrsb_and_cancellation flare10w 3 = some row ∧
      sliceClip flare10w.xrsb (3 + 9) (3 + 15) ≠ [] ∧
      (sliceClip flare10w.xrsb (3 + 9) (3 + 15)).length < 6 ∧
      row.hic_max = some (listMax (sliceClip flare10w.xrsb (3 + 9) (3 + 15))) ∧
      row.hic_mean = some (listMean (sliceClip flare10w.xrsb (3 + 9) (3 + 15))) :=
  C10_partial_window_amended flare10w 3 (by decide) (by decide) (by decide) (by decide)

end ParameterSearch
